import Mathlib

/-
  Verification development for the als.bcs ingestion library.

  The Python sources (als/bcs/scans.py, ingest.py, data.py, errors.py,
  find.py) are shallowly embedded below.  Files are modelled as the list
  of line strings that Python file iteration yields (each line keeps its
  trailing newline, except possibly the last one).  Python floats are
  modelled as exact rationals; int() and float() are modelled on plain
  ASCII literals (underscore digit separators, non-ASCII digits and the
  special float values inf and nan are not modelled, and none of the
  inputs used below contain them).
-/

namespace AlsBcs

/-! ### Python string primitives -/

/-- Model of Python str.strip() with no argument (trim whitespace on both
sides). -/
def pyStrip (s : String) : String :=
  ((s.toList.dropWhile Char.isWhitespace).reverse.dropWhile
    Char.isWhitespace).reverse.asString

/-- Model of Python str.rstrip() with no argument. -/
def pyRstrip (s : String) : String :=
  (s.toList.reverse.dropWhile Char.isWhitespace).reverse.asString

/-- Model of Python str.lstrip(chars): drop leading characters belonging to
the given character set. -/
def pyLstripSet (chars : List Char) (s : String) : String :=
  (s.toList.dropWhile (fun c => c ∈ chars)).asString

/-- Model of Python str.rstrip(chars): drop trailing characters belonging to
the given character set. -/
def pyRstripSet (chars : List Char) (s : String) : String :=
  (s.toList.reverse.dropWhile (fun c => c ∈ chars)).reverse.asString

/-- Model of Python str.lower() (ASCII case folding). -/
def pyLower (s : String) : String :=
  (s.toList.map Char.toLower).asString

/-- Model of Python single-character str.replace(old, new): with a
one-character pattern, non-overlapping left-to-right replacement is a map. -/
def pyReplaceChar (old new : Char) (s : String) : String :=
  (s.toList.map (fun c => if c = old then new else c)).asString

/-- Model of Python str.startswith(pre). -/
def pyStartsWith (s pre : String) : Bool :=
  pre.toList.isPrefixOf s.toList

/-- Model of Python str.replace(old, new) on character lists:
non-overlapping left-to-right replacement of every occurrence.  The fuel
argument (instantiated to the string length, an upper bound on the number
of steps) only makes the recursion structural. -/
def pyReplaceListAux (old new : List Char) : Nat → List Char → List Char
  | _, [] => []
  | 0, s => s
  | fuel + 1, c :: rest =>
    if old ≠ [] ∧ old.isPrefixOf (c :: rest) then
      new ++ pyReplaceListAux old new fuel ((c :: rest).drop old.length)
    else
      c :: pyReplaceListAux old new fuel rest

/-- Model of Python str.replace(old, new) for a nonempty pattern (the
sources never call replace with an empty pattern). -/
def pyReplace (old new s : String) : String :=
  (pyReplaceListAux old.toList new.toList s.toList.length s.toList).asString

/-- Index (0-based) of the last occurrence of the pattern inside the
string, when there is one. -/
def lastMatchIdx (pat s : List Char) : Option Nat :=
  ((List.range (s.length + 1)).filter
    (fun i => pat.isPrefixOf (s.drop i))).getLast?

/-- Index (0-based) of the first occurrence of the pattern inside the
string, when there is one. -/
def firstMatchIdx (pat s : List Char) : Option Nat :=
  ((List.range (s.length + 1)).filter
    (fun i => pat.isPrefixOf (s.drop i))).head?

/-- Model of Python s.rsplit(sep, 1): the second component is none when the
separator does not occur (Python then returns the one-element list [s]). -/
def pyRsplitOnce (sep s : String) : String × Option String :=
  match lastMatchIdx sep.toList s.toList with
  | Option.none => (s, Option.none)
  | some i =>
      ((s.toList.take i).asString,
       some ((s.toList.drop (i + sep.length)).asString))

/-- Model of Python s.split(sep, 1): the second component is none when the
separator does not occur. -/
def pySplitOnce (sep s : String) : String × Option String :=
  match firstMatchIdx sep.toList s.toList with
  | Option.none => (s, Option.none)
  | some i =>
      ((s.toList.take i).asString,
       some ((s.toList.drop (i + sep.length)).asString))

/-- Model of Python s.split(sep, 1)[1]: Python raises IndexError when the
separator does not occur and the one-element result is indexed at 1. -/
def pySplitIndex1 (sep s : String) : Option String :=
  (pySplitOnce sep s).2

/-- Splitting a character list at every whitespace character (keeping
empty pieces), structurally. -/
def splitWsAux : List Char → List Char → List (List Char)
  | [], acc => [acc.reverse]
  | c :: rest, acc =>
    if c.isWhitespace then acc.reverse :: splitWsAux rest []
    else splitWsAux rest (c :: acc)

/-- Model of Python str.split() with no argument: split on whitespace runs
and drop empty pieces. -/
def pySplitWs (s : String) : List String :=
  ((splitWsAux s.toList []).map List.asString).filter (fun p => p ≠ "")

/-- Splitting at every occurrence of a separator, keeping empty pieces.
The fuel argument (instantiated above the string length) only makes the
recursion structural. -/
def pySplitAllAux (sep : List Char) : Nat → List Char → List (List Char)
  | 0, s => [s]
  | fuel + 1, s =>
    match firstMatchIdx sep s with
    | Option.none => [s]
    | some i => s.take i :: pySplitAllAux sep fuel (s.drop (i + sep.length))

/-- Model of Python str.split(sep) with a nonempty separator and no limit. -/
def pySplitAll (sep s : String) : List String :=
  (pySplitAllAux sep.toList (s.toList.length + 1) s.toList).map List.asString

/-- Digit list to numeric value, for int() and float() models. -/
def digitsToNat (ds : List Char) : Option Nat :=
  if ds ≠ [] ∧ ds.all Char.isDigit then
    some (ds.foldl (fun a c => a * 10 + (c.toNat - ('0').toNat)) 0)
  else
    Option.none

/-- Model of Python int(str): surrounding whitespace, an optional sign and
a nonempty run of ASCII digits; anything else raises ValueError (mapped to
none here). -/
def pyInt (s : String) : Option Int :=
  match (pyStrip s).toList with
  | '+' :: ds => (digitsToNat ds).map (fun n => (n : Int))
  | '-' :: ds => (digitsToNat ds).map (fun n => -(n : Int))
  | ds => (digitsToNat ds).map (fun n => (n : Int))

/-- Mantissa of a float literal: digits, optionally with one decimal point,
with at least one digit present. -/
def floatMantissa (ds : List Char) : Option ℚ :=
  match pySplitOnce "." ds.asString with
  | (ipart, Option.none) =>
      (digitsToNat ipart.toList).map (fun n => (n : ℚ))
  | (ipart, some fpart) =>
      let il := ipart.toList
      let fl := fpart.toList
      if (il ≠ [] ∨ fl ≠ []) ∧ il.all Char.isDigit ∧ fl.all Char.isDigit then
        some ((il.foldl (fun a c => a * 10 + (c.toNat - ('0').toNat)) 0 : ℚ) +
          (fl.foldl (fun a c => a * 10 + (c.toNat - ('0').toNat)) 0 : ℚ) /
            ((10 : ℚ) ^ fl.length))
      else
        Option.none

/-- Unsigned part of a float literal: mantissa with an optional decimal
exponent. -/
def floatUnsigned (ds : List Char) : Option ℚ :=
  match pySplitOnce "e" (pyLower ds.asString) with
  | (mpart, Option.none) => floatMantissa mpart.toList
  | (mpart, some epart) =>
      match floatMantissa mpart.toList, pyInt epart with
      | some m, some e => some (m * (10 : ℚ) ^ e)
      | _, _ => Option.none

/-- Model of Python float(str) on plain decimal literals, with exact
rational values in place of IEEE doubles. -/
def pyFloat (s : String) : Option ℚ :=
  match (pyStrip s).toList with
  | '+' :: ds => floatUnsigned ds
  | '-' :: ds => (floatUnsigned ds).map (fun q => -q)
  | ds => floatUnsigned ds

/-! ### Errors raised by the sources (als/bcs/errors.py plus the Python
built-in exceptions the code can hit) -/

/-- Row warning object built by ScanFileRowMessage: the keyword arguments it
was constructed with, plus the assembled message. -/
structure RowWarning where
  scan_file_path : String
  file_number : Option Int
  step_number : Int
  message : String
deriving DecidableEq

/-- Exceptions of the embedded code: the typed errors of als/bcs/errors.py
and the Python built-ins (ValueError, TypeError, IndexError,
AttributeError, FileNotFoundError) that its statements can raise. -/
inductive BcsErr where
  | headerNotFound (scan_file_path : String)
  | scanFileNotFound (scan_file_path data_file_path : String)
  | rowWarningRaised (w : RowWarning)
  | fileNotFound
  | valueError
  | typeError
  | indexError
  | attributeError
deriving DecidableEq

/-- Decidable equality for Except results, used to evaluate the embedded
functions on concrete inputs. -/
instance {e a : Type} [DecidableEq e] [DecidableEq a] :
    DecidableEq (Except e a) := fun x y =>
  match x, y with
  | Except.error u, Except.error v =>
      if h : u = v then Decidable.isTrue (by rw [h])
      else Decidable.isFalse (fun hc => by cases hc; exact h rfl)
  | Except.ok u, Except.ok v =>
      if h : u = v then Decidable.isTrue (by rw [h])
      else Decidable.isFalse (fun hc => by cases hc; exact h rfl)
  | Except.error _, Except.ok _ => Decidable.isFalse (fun hc => by cases hc)
  | Except.ok _, Except.error _ => Decidable.isFalse (fun hc => by cases hc)

/-- Model of the ScanFileHeaderNotFoundError constructor (errors.py): its
scan_file_path parameter is keyword-only (it follows *args), so a call
that does not supply it as a keyword argument raises TypeError whatever
positional arguments were given; with the keyword supplied it builds the
error carrying the path. -/
def mk_scan_file_header_not_found_error (_positional_args : List String)
    (scan_file_path : Option String) : Except BcsErr BcsErr :=
  match scan_file_path with
  | some path => Except.ok (BcsErr.headerNotFound path)
  | Option.none => Except.error BcsErr.typeError

/-! ### als/bcs/scans.py -/

/-- Nested helper is_blank_or_comment of get_scan_header_line_number. -/
def is_blank_or_comment (file_line : String) : Bool :=
  let line_content := pyStrip file_line
  line_content = "" || pyStartsWith line_content "#"

/-- Header-detection predicate of get_scan_header_line_number: first
character a digit, or the line case-insensitively starting with file, or a
leading minus sign followed by a digit.  Python evaluates file_line[1]
only when the first two disjuncts fail and file_line[0] is a minus sign,
and raises IndexError when that second character does not exist (a file
whose last line is a lone minus sign with no newline). -/
def header_line_pred (file_line : String) : Except BcsErr Bool :=
  if (file_line.toList.get? 0).any Char.isDigit then Except.ok true
  else if pyStartsWith (pyLower file_line) "file" then Except.ok true
  else if file_line.toList.get? 0 = some '-' then
    match file_line.toList.get? 1 with
    | some c => Except.ok c.isDigit
    | Option.none => Except.error BcsErr.indexError
  else Except.ok false

/-- Scanning loop of get_scan_header_line_number: i is the current line
index, k the consecutive_skipped_lines counter; on a match the code
returns header_linenum minus (consecutive_skipped_lines + 1), and a
predicate IndexError propagates. -/
def find_header : List String → Nat → Nat → Except BcsErr (Option Int)
  | [], _, _ => Except.ok Option.none
  | file_line :: rest, i, k =>
    if is_blank_or_comment file_line then
      find_header rest (i + 1) (k + 1)
    else
      match header_line_pred file_line with
      | Except.error e => Except.error e
      | Except.ok true => Except.ok (some ((i : Int) - ((k : Int) + 1)))
      | Except.ok false => find_header rest (i + 1) 0

/-- Embedding of get_scan_header_line_number (scans.py): the scan file is
given as its list of lines.  When no header line is found and
raise_exception is set, the code raises ScanFileHeaderNotFoundError with
scan_file_path passed positionally; since that constructor parameter is
keyword-only, the construction itself raises TypeError. -/
def get_scan_header_line_number (scan_file_path : String)
    (lines : List String) (raise_exception : Bool) : Except BcsErr Int :=
  match find_header lines 0 0 with
  | Except.error e => Except.error e
  | Except.ok (some n) => Except.ok n
  | Except.ok Option.none =>
      if raise_exception then
        match mk_scan_file_header_not_found_error [scan_file_path]
            Option.none with
        | Except.error e => Except.error e
        | Except.ok err => Except.error err
      else
        Except.ok (-1)

/-- Body of the enumeration loop of get_scan_line_numbers: rows are the
enumerated lines, and the mutable state is (first_line, last_line,
output_file_number, subscan_is_empty).  Returning without recursing models
the early return when output_file_number passes file_number; the list-end
case models the for-else clause. -/
def scan_lines_loop (header_linenum fn : Int) :
    List (Nat × String) → Int → Int → Int → Bool → Int × Int
  | [], first_line, last_line, _, subscan_is_empty =>
      if subscan_is_empty then (-1, -1) else (first_line, last_line)
  | (linenum, file_line) :: rest, first_line, last_line, output, subscan_is_empty =>
      if (linenum : Int) ≤ header_linenum then
        scan_lines_loop header_linenum fn rest first_line last_line output
          subscan_is_empty
      else if pyStartsWith (pyLower file_line) "file" then
        let output1 := if ¬ subscan_is_empty then output + 1 else output
        if output1 = fn then
          scan_lines_loop header_linenum fn rest ((linenum : Int) + 1)
            ((linenum : Int) + 1) output1 true
        else if output1 > fn then
          (first_line, last_line)
        else
          scan_lines_loop header_linenum fn rest first_line last_line output1
            true
      else
        let line_content := pyStrip file_line
        if line_content ≠ "" ∧ ¬ pyStartsWith line_content "#" then
          scan_lines_loop header_linenum fn rest first_line
            (if output = fn then (linenum : Int) else last_line) output false
        else if line_content = "" ∧ subscan_is_empty then
          scan_lines_loop header_linenum fn rest (first_line + 1)
            (last_line + 1) output subscan_is_empty
        else
          scan_lines_loop header_linenum fn rest first_line last_line output
            subscan_is_empty

/-- Embedding of get_scan_line_numbers (scans.py).  The code calls
get_scan_header_line_number inside try/except ScanFileHeaderNotFoundError;
since the failed raise produces TypeError instead of that error, the
except handler (first arm below) is dead code and the TypeError
propagates.  file_number may be Python None, and the statement
file_number = file_number or 1 also maps 0 to 1. -/
def get_scan_line_numbers (scan_file_path : String) (lines : List String)
    (file_number : Option Int) : Except BcsErr (Int × Int) :=
  match get_scan_header_line_number scan_file_path lines true with
  | Except.error (BcsErr.headerNotFound _) => Except.ok (-1, -1)
  | Except.error e => Except.error e
  | Except.ok header_linenum =>
      let fn : Int :=
        match file_number with
        | Option.none => 1
        | some k => if k = 0 then 1 else k
      let start : Int × Int :=
        if fn = 1 then (header_linenum + 1, header_linenum + 1) else (-1, -1)
      Except.ok
        (scan_lines_loop header_linenum fn lines.enum start.1 start.2 1 true)

/-- Final value of the output_file_number counter when the loop of
get_scan_line_numbers runs over the whole file: the number of sub-scans the
code finds.  State is (output_file_number, subscan_is_empty). -/
def sub_scan_loop (header_linenum : Int) :
    List (Nat × String) → Int → Bool → Int
  | [], output, _ => output
  | (linenum, file_line) :: rest, output, subscan_is_empty =>
      if (linenum : Int) ≤ header_linenum then
        sub_scan_loop header_linenum rest output subscan_is_empty
      else if pyStartsWith (pyLower file_line) "file" then
        if ¬ subscan_is_empty then
          sub_scan_loop header_linenum rest (output + 1) true
        else
          sub_scan_loop header_linenum rest output subscan_is_empty
      else
        let line_content := pyStrip file_line
        if line_content ≠ "" ∧ ¬ pyStartsWith line_content "#" then
          sub_scan_loop header_linenum rest output false
        else
          sub_scan_loop header_linenum rest output subscan_is_empty

/-- Number of sub-scans get_scan_line_numbers counts in a scan file whose
header is at the given line. -/
def sub_scan_count (lines : List String) (header_linenum : Int) : Int :=
  sub_scan_loop header_linenum lines.enum 1 true

/-- Embedding of the motor-name extraction of is_flying_scan (scans.py)
with return_motor=True, taking the resolved header_linenum and the first
line of the scan file.  The first component is the boolean result; the
name is some only when both the Flying marker and an opening parenthesis
are found (otherwise the code falls through to (False, None)). -/
def is_flying_scan_motor (header_linenum : Int) (first_line : String) :
    Bool × Option String :=
  if header_linenum > 0 then
    let fl := pyRstrip first_line
    let fl := pyReplace "flying " "Flying " fl
    match pyRsplitOnce "Flying " fl with
    | (_, some afterFlying) =>
        match pyRsplitOnce "(" afterFlying with
        | (beforeParen, some _) => (true, some (pyStrip beforeParen))
        | (_, Option.none) => (false, Option.none)
    | (_, Option.none) => (false, Option.none)
  else
    (false, Option.none)

/-- Unnamed-column clean-up of parse_scan_file_lines (scans.py): there can
be at most one unnamed column, so every unnamed column label beyond the
first is dropped (pandas drop removes columns by label). -/
def drop_excess_unnamed (columns : List String) : List String :=
  let unnamed_columns := columns.filter (fun c => pyStartsWith c "Unnamed")
  let excess_unnamed_columns := unnamed_columns.drop 1
  columns.filter (fun c => c ∉ excess_unnamed_columns)

/-- Flying-motor naming of parse_scan_file_lines (scans.py), guarded by the
truthiness of flying_name: rename a trailing unnamed column to the flying
motor, or repair a table that is missing a delimiter by shifting the names
one position left, assigning the flying name to the new last column, and
promoting the former first column (the index) back into the table.  An
empty table would make the Python df.columns[-1] raise; parsed tables
always have at least one column. -/
def apply_flying_name (flying_name : String) (columns1 : List String) :
    List String :=
  if flying_name ≠ "" then
    match columns1.getLast? with
    | Option.none => columns1
    | some lastCol =>
        if pyStartsWith lastCol "Unnamed" then
          columns1.dropLast ++ [flying_name]
        else
          match columns1 with
          | [] => columns1
          | c0 :: restCols => c0 :: (restCols ++ [flying_name])
  else
    columns1

/-- Embedding of the column post-processing of parse_scan_file_lines
(scans.py): given the column names of the raw parsed table and the first
line of the scan file, drop all unnamed columns but the first, then apply
the flying-motor naming extracted by is_flying_scan. -/
def parse_scan_file_columns (scan_file_first_line : String)
    (header_linenum : Int) (columns : List String) : List String :=
  let columns1 := drop_excess_unnamed columns
  match (is_flying_scan_motor header_linenum scan_file_first_line).2 with
  | Option.none => columns1
  | some flying_name => apply_flying_name flying_name columns1

/-- Embedding of replace_subpath (find.py): apply the replacement pairs in
order, each replacing every occurrence. -/
def replace_subpath (file_path : String)
    (subpath_replace_dict : List (String × String)) : String :=
  subpath_replace_dict.foldl
    (fun acc kv => pyReplace kv.1 kv.2 acc) file_path

/-! ### als/bcs/data.py -/

/-- Model of os.path.basename for posix-style paths: the part after the
last slash. -/
def pyBasename (path : String) : String :=
  (path.toList.foldl
    (fun acc c => if c = '/' then [] else acc ++ [c]) []).asString

/-- Model of the root part of os.path.splitext: cut at the last dot unless
every character before that dot is itself a dot (a leading-dots name such
as .txt keeps its dot). -/
def pySplitextRoot (name : String) : String :=
  match lastMatchIdx ['.'] name.toList with
  | Option.none => name
  | some i =>
      if (name.toList.take i).any (fun c => c ≠ '.') then
        (name.toList.take i).asString
      else
        name

/-- One suffix-number step of get_data_file_numbers: when the rsplit found
a separator, the token after it goes through int(), and a failed
conversion raises ValueError. -/
def int_token (t : Option String) : Except BcsErr (Option Int) :=
  match t with
  | Option.none => Except.ok Option.none
  | some tok =>
      match pyInt tok with
      | some n => Except.ok (some n)
      | Option.none => Except.error BcsErr.valueError

/-- The text after Scan in get_data_file_numbers: a numeric remainder is
the scan number; otherwise the except ValueError handler rsplits on the
last space (newer Beamline naming), converts the left part as the scan
number (raising if it fails too) and, when a right part exists, re-assigns
the file number from it. -/
def scan_token (t : String) (file_number0 repeat_number : Option Int) :
    Except BcsErr (Option Int × Option Int × Option Int) :=
  match pyInt t with
  | some n => Except.ok (some n, file_number0, repeat_number)
  | Option.none =>
      let sp := pyRsplitOnce " " t
      match pyInt sp.1 with
      | Option.none => Except.error BcsErr.valueError
      | some n =>
          match sp.2 with
          | Option.none => Except.ok (some n, file_number0, repeat_number)
          | some m =>
              match pyInt m with
              | Option.none => Except.error BcsErr.valueError
              | some fnum => Except.ok (some n, some fnum, repeat_number)

/-- Body of get_data_file_numbers after the basename and splitext steps:
peel the _file suffix, then the -repeat suffix, then split on Scan. -/
def decode_basename_root (root : String) :
    Except BcsErr (Option Int × Option Int × Option Int) :=
  match int_token (pyRsplitOnce "_" root).2 with
  | Except.error e => Except.error e
  | Except.ok file_number0 =>
    match int_token (pyRsplitOnce "-" (pyRsplitOnce "_" root).1).2 with
    | Except.error e => Except.error e
    | Except.ok repeat_number =>
      match (pyRsplitOnce "Scan"
          (pyRsplitOnce "-" (pyRsplitOnce "_" root).1).1).2 with
      | Option.none => Except.ok (Option.none, file_number0, repeat_number)
      | some t => scan_token t file_number0 repeat_number

/-- Embedding of get_data_file_numbers (data.py): extract the
(scan, file, repeat) numbers from the data file path. -/
def get_data_file_numbers (data_file_path : String) :
    Except BcsErr (Option Int × Option Int × Option Int) :=
  decode_basename_root (pySplitextRoot (pyBasename data_file_path))

/-! ### als/bcs/errors.py: the ScanFileRowMessage builder and warn_or_raise -/

/-- Values held by the cells of an imported motor table (numpy object
arrays): strings, numbers, or missing values. -/
inductive PyObj where
  | pystr (s : String)
  | pynum (q : ℚ)
  | pynan
deriving DecidableEq

/-- Python objects the flying loop of get_data_file_header tests with
isinstance against str: a string, or the numpy column array object bound
to flying_motor_values. -/
inductive PyRef where
  | str (s : String)
  | ndarray (cells : List PyObj)
deriving DecidableEq

/-- Model of Python isinstance(x, str): only a str is a str; in particular
a numpy ndarray never is, whatever its cells hold. -/
def PyRef.isinstance_str : PyRef → Bool
  | PyRef.str _ => true
  | PyRef.ndarray _ => false

/-- The description argument of ScanFileRowMessage: the code passes either
a plain string or a ROW_ERROR enum member. -/
inductive RowDescription where
  | str (s : String)
  | enum_member (name : String)
deriving DecidableEq

/-- Model of Python truthiness of the description: an empty string is
falsy, an enum member is truthy. -/
def row_description_truthy : RowDescription → Bool
  | RowDescription.str s => s ≠ ""
  | RowDescription.enum_member _ => true

/-- Model of the f-string interpolation of the description: str() of a
ROW_ERROR enum member prints as ROW_ERROR.NAME. -/
def row_description_text : RowDescription → String
  | RowDescription.str s => s
  | RowDescription.enum_member n => "ROW_ERROR." ++ n

/-- Model of description[-1]: subscripting a string yields its last
character; subscripting an enum member raises TypeError (ROW_ERROR is not
subscriptable), and an empty string raises IndexError. -/
def row_description_last_char : RowDescription → Except BcsErr Char
  | RowDescription.str s =>
      match s.toList.getLast? with
      | some c => Except.ok c
      | Option.none => Except.error BcsErr.indexError
  | RowDescription.enum_member _ => Except.error BcsErr.typeError

/-- Embedding of ScanFileRowMessage (errors.py): _error_message plus the
fixed remediation hint.  A Python None file_number makes the comparison
file_number > 0 raise TypeError. -/
def scan_file_row_message (scan_file_path : String) (file_number : Option Int)
    (step_number : Int) (description : RowDescription) :
    Except BcsErr String :=
  let m0 := "Invalid value or format found in input scan file: '" ++
    scan_file_path ++ "'"
  match file_number with
  | Option.none => Except.error BcsErr.typeError
  | some fnum =>
    let m1 :=
      if fnum > 0 then m0 ++ "; file output number: " ++ toString fnum else m0
    let m2 :=
      if step_number > 0 then m1 ++ "; step number " ++ toString step_number
      else m1
    let m3 := m2 ++ "."
    let tail := " Check for missing values, spaces instead of tabs, or" ++
      " extra header rows."
    if row_description_truthy description then
      match row_description_last_char description with
      | Except.error e => Except.error e
      | Except.ok c =>
          let m4 := m3 ++ " " ++ row_description_text description
          let m5 := if c ≠ '.' then m4 ++ "." else m4
          Except.ok (m5 ++ tail)
    else
      Except.ok (m3 ++ tail)

/-- Constructing a ScanFileRowWarning builds its message eagerly, so a bad
description raises out of the constructor itself. -/
def mk_scan_file_row_warning (scan_file_path : String)
    (file_number : Option Int) (step_number : Int)
    (description : RowDescription) : Except BcsErr RowWarning :=
  match scan_file_row_message scan_file_path file_number step_number
      description with
  | Except.error e => Except.error e
  | Except.ok message =>
      Except.ok ⟨scan_file_path, file_number, step_number, message⟩

/-- Embedding of warn_or_raise (errors.py): raise the warning as an
exception, or report it (collected into the warnings list here). -/
def warn_or_raise (w : RowWarning) (raise_warning : Bool)
    (warnings : List RowWarning) : Except BcsErr (List RowWarning) :=
  if raise_warning then Except.error (BcsErr.rowWarningRaised w)
  else Except.ok (warnings ++ [w])

/-! ### als/bcs/ingest.py: get_data_file_header -/

/-- Motor table produced by import_scan_file: column names and row-major
cell values (a pandas DataFrame's columns and values). -/
structure MotorTable where
  columns : List String
  values : List (List PyObj)
deriving DecidableEq

/-- Header-info accumulator of get_data_file_header.  Optional fields model
dict keys that are absent until first assigned; motor_velocity in
particular must stay absent for non-flying scans. -/
structure HeaderInfo where
  scan_type : Option String := Option.none
  date : Option (Nat × Nat × Nat) := Option.none
  motors : List String := []
  motor_first : List ℚ := []
  motor_last : List ℚ := []
  motor_step : List ℚ := []
  motor_velocity : Option (List ℚ) := Option.none
  flying : Bool := false
  pause_motor : Option String := Option.none
  scan_file_path : Option String := Option.none
  motor_values : Option (List (List PyObj)) := Option.none
  memo : Option String := Option.none
  num_samples : Option Int := Option.none
  count_sec : Option ℚ := Option.none
  delay_sec : Option ℚ := Option.none
  repeat_number : Option (Int ⊕ String) := Option.none
  bidirect : Option Bool := Option.none
  stay_at_end : Option Bool := Option.none
  motor_header_linenum : Option Int := Option.none
deriving DecidableEq

/-- Per-step value sequences populated by the flying-motor loop of
get_data_file_header (the four key_names entries). -/
structure FlyingAcc where
  motor_first : List ℚ := []
  motor_last : List ℚ := []
  motor_step : List ℚ := []
  motor_velocity : List ℚ := []
deriving DecidableEq

/-- The key_names list of the flying-motor loop. -/
def key_names : List String :=
  ["motor_first", "motor_last", "motor_step", "motor_velocity"]

/-- Append to header_info[key_name] for a flying-loop key. -/
def flying_append (acc : FlyingAcc) (key_name : String) (v : ℚ) : FlyingAcc :=
  if key_name = "motor_first" then
    {acc with motor_first := acc.motor_first ++ [v]}
  else if key_name = "motor_last" then
    {acc with motor_last := acc.motor_last ++ [v]}
  else if key_name = "motor_step" then
    {acc with motor_step := acc.motor_step ++ [v]}
  else if key_name = "motor_velocity" then
    {acc with motor_velocity := acc.motor_velocity ++ [v]}
  else
    acc

/-- Model of Python float(str) with its ValueError on failure. -/
def pyFloatExc (s : String) : Except BcsErr ℚ :=
  match pyFloat s with
  | some q => Except.ok q
  | Option.none => Except.error BcsErr.valueError

/-- Inner zip loop of the flying-motor step parser: float() raises
ValueError on a bad sub-value, which the except TypeError handler of the
source cannot catch, so it propagates (that handler would itself raise
TypeError by joining a ROW_ERROR enum member with a string). -/
def flying_append_values :
    List (String × String) → FlyingAcc → Except BcsErr FlyingAcc
  | [], acc => Except.ok acc
  | (motor_value, key_name) :: rest, acc =>
    match pyFloatExc motor_value with
    | Except.ok x => flying_append_values rest (flying_append acc key_name x)
    | Except.error BcsErr.typeError => Except.error BcsErr.typeError
    | Except.error e => Except.error e

/-- Processing of one flying descriptor cell after the isinstance guard:
strip, lower, lstrip the characters of flying, strip, lstrip an opening
parenthesis, rstrip a closing one, split on commas and convert.  A
non-string cell would raise AttributeError at the first strip. -/
def flying_step_values (cell : PyObj) (acc : FlyingAcc) :
    Except BcsErr FlyingAcc :=
  match cell with
  | PyObj.pystr s =>
      let v1 := pyLstripSet "flying".toList (pyLower (pyStrip s))
      let v2 := pyRstripSet ")".toList (pyLstripSet "(".toList (pyStrip v1))
      flying_append_values ((pySplitAll "," v2).zip key_names) acc
  | _ => Except.error BcsErr.attributeError

/-- Outer flying-motor loop of get_data_file_header.  The source guards
each step with isinstance(flying_motor_values, str) where
flying_motor_values is the whole numpy column, not the current cell, so
the guard is False at every step and every step takes the warning path;
the warning is built with the ROW_ERROR.FLYING_COMMAND enum member as its
description. -/
def flying_loop (scan_file_path : String) (file_number : Option Int)
    (raise_warning : Bool) (flying_motor_values : List PyObj) :
    Nat → List PyObj → FlyingAcc → List RowWarning →
    Except BcsErr (FlyingAcc × List RowWarning)
  | _, [], acc, warnings => Except.ok (acc, warnings)
  | step, cell :: rest, acc, warnings =>
    if ¬ (PyRef.ndarray flying_motor_values).isinstance_str then
      match mk_scan_file_row_warning scan_file_path file_number
          ((step : Int) + 1) (RowDescription.enum_member "FLYING_COMMAND") with
      | Except.error e => Except.error e
      | Except.ok w =>
          match warn_or_raise w raise_warning warnings with
          | Except.error e => Except.error e
          | Except.ok warnings1 =>
              flying_loop scan_file_path file_number raise_warning
                flying_motor_values (step + 1) rest acc warnings1
    else
      match flying_step_values cell acc with
      | Except.error e => Except.error e
      | Except.ok acc1 =>
          flying_loop scan_file_path file_number raise_warning
            flying_motor_values (step + 1) rest acc1 warnings

/-- Per-step parse of the flying descriptor column of a Trajectory scan
as get_data_file_header runs it: the loop over
enumerate(flying_motor_values). -/
def flying_parse_steps (scan_file_path : String) (file_number : Option Int)
    (raise_warning : Bool) (flying_motor_values : List PyObj)
    (warnings : List RowWarning) :
    Except BcsErr (FlyingAcc × List RowWarning) :=
  flying_loop scan_file_path file_number raise_warning flying_motor_values
    0 flying_motor_values {} warnings

/-- Model of Python file_line[0].isdigit(): first character of the line is
an ASCII digit (file iteration never yields an empty line, for which
Python would raise IndexError). -/
def py_digit_leading (file_line : String) : Bool :=
  (file_line.toList.get? 0).any Char.isDigit

/-- Abstraction of datetime.strptime(date_str, m/d/Y): three slash-parts,
numeric, month and day in calendar range. -/
def py_parse_mdY (s : String) : Option (Nat × Nat × Nat) :=
  match pySplitAll "/" s with
  | [m, d, y] =>
      match digitsToNat m.toList, digitsToNat d.toList,
          digitsToNat y.toList with
      | some mn, some dn, some yn =>
          if 1 ≤ mn ∧ mn ≤ 12 ∧ 1 ≤ dn ∧ dn ≤ 31 then some (mn, dn, yn)
          else Option.none
      | _, _, _ => Option.none
  | _ => Option.none

/-- Embedding of the nested handle_time_scan_numbers of
get_data_file_header: positional handling of the digit-leading TimeScan
header lines MEMO_LENGTH=1, MEMO=2, SAMPLES=3, ACQUIRE=4.  Returns (the
boolean result of the function, the nonlocal get_memo, the mutated
header_info); ValueError models its raise statements and failed
conversions. -/
def handle_time_scan_numbers (header_linenum : Nat) (file_line : String)
    (get_memo : Bool) (header_info : HeaderInfo) :
    Except BcsErr (Bool × Bool × HeaderInfo) :=
  let str_values := pySplitWs (pyStrip file_line)
  match header_linenum with
  | 1 =>
      match str_values with
      | [] => Except.error BcsErr.valueError
      | t :: _ =>
          match pyInt t with
          | Option.none => Except.error BcsErr.valueError
          | some n =>
              if n - 1 ≥ 0 then Except.ok (true, true, header_info)
              else Except.ok (false, get_memo, header_info)
  | 2 =>
      Except.ok (true, false,
        {header_info with memo := some (pyRstrip file_line)})
  | 3 =>
      match str_values with
      | [] => Except.error BcsErr.valueError
      | t :: _ =>
          match pyInt t with
          | Option.none => Except.error BcsErr.valueError
          | some n =>
              Except.ok (true, get_memo,
                {header_info with num_samples := some n})
  | 4 =>
      match str_values with
      | _ :: t1 :: _ :: _ :: t4 :: _ =>
          match pyFloat t1 with
          | Option.none => Except.error BcsErr.valueError
          | some period_sec =>
              match pyFloat t4 with
              | Option.none => Except.error BcsErr.valueError
              | some count_sec =>
                  Except.ok (true, get_memo,
                    {header_info with
                      count_sec := some count_sec,
                      delay_sec := some (max 0 (period_sec - count_sec))})
      | _ => Except.error BcsErr.valueError
  | _ => Except.ok (false, get_memo, header_info)

/-- Mutable flags and accumulators of the get_data_file_header loop. -/
structure ParserSt where
  info : HeaderInfo := {}
  get_motor_name : Bool := false
  get_pause_motor_name : Bool := false
  get_scan_file_path : Bool := false
  get_memo : Bool := false
  is_time_scan : Bool := false
  warnings : List RowWarning := []
deriving DecidableEq

/-- Outcome of one loop iteration of get_data_file_header: continue with
the next line, or break out of the loop. -/
inductive StepOut where
  | cont (st : ParserSt)
  | stop (st : ParserSt)
deriving DecidableEq

/-- State carried by a step outcome. -/
def StepOut.state : StepOut → ParserSt
  | StepOut.cont st => st
  | StepOut.stop st => st

/-- Scan-file resolution of get_data_file_header, run when the
get_scan_file_path flag consumes the line holding the scan-file path.
import_scan models import_scan_file on the external scan file (its
FileNotFoundError becomes ScanFileNotFoundError), and scan_is_flying
models the boolean is_flying_scan call on that file. -/
def scan_file_branch (data_file_path : String)
    (subpath_replace_dict : List (String × String))
    (import_scan : String → Option Int → Except BcsErr MotorTable)
    (scan_is_flying : String → Except BcsErr Bool)
    (raise_warning : Bool) (file_line : String) (st : ParserSt) :
    Except BcsErr ParserSt :=
  let scan_file_path_raw := pyRstrip file_line
  let scan_file_path0 := pyReplaceChar '\\' '/' scan_file_path_raw
  let st := {st with
    get_scan_file_path := false,
    info := {st.info with scan_file_path := some scan_file_path0}}
  match get_data_file_numbers data_file_path with
  | Except.error e => Except.error e
  | Except.ok (_scan_number, file_number, _repeat_number) =>
    let scan_file_path1 := replace_subpath scan_file_path0
      subpath_replace_dict
    match import_scan scan_file_path1 file_number with
    | Except.error BcsErr.fileNotFound =>
        Except.error (BcsErr.scanFileNotFound scan_file_path1 data_file_path)
    | Except.error e => Except.error e
    | Except.ok motor_df =>
       let motor_values := motor_df.values.transpose
       let info1 := {st.info with
         motors := motor_df.columns,
         motor_values := some motor_values}
       match scan_is_flying scan_file_path1 with
       | Except.error e => Except.error e
       | Except.ok false => Except.ok {st with info := info1}
       | Except.ok true =>
           let info2 := {info1 with flying := true}
           match motor_values.getLast? with
           | Option.none => Except.error BcsErr.indexError
           | some flying_motor_values =>
               match flying_parse_steps scan_file_path1 file_number
                   raise_warning flying_motor_values st.warnings with
               | Except.error e => Except.error e
               | Except.ok (acc, warnings1) =>
                   Except.ok {st with
                     warnings := warnings1,
                     info := {info2 with
                       motor_first := acc.motor_first,
                       motor_last := acc.motor_last,
                       motor_step := acc.motor_step,
                       motor_velocity := some acc.motor_velocity,
                       motor_values := some motor_values.dropLast}}

/-- One iteration of the header loop of get_data_file_header: the cascade
of pending-capture flags, keyword branches in source order, and the
digit-leading branch with the TimeScan sub-state and the break that
records motor_header_linenum. -/
def data_header_step (data_file_path : String)
    (subpath_replace_dict : List (String × String))
    (import_scan : String → Option Int → Except BcsErr MotorTable)
    (scan_is_flying : String → Except BcsErr Bool)
    (raise_warning : Bool) (header_linenum : Nat) (file_line : String)
    (st : ParserSt) : Except BcsErr StepOut :=
  if st.get_motor_name then
    Except.ok (StepOut.cont {st with
      get_motor_name := false,
      info := {st.info with motors := st.info.motors ++ [pyStrip file_line]}})
  else if st.get_pause_motor_name then
    Except.ok (StepOut.cont {st with
      get_pause_motor_name := false,
      get_scan_file_path := true,
      info := {st.info with pause_motor := some (pyStrip file_line)}})
  else if st.get_scan_file_path then
    match scan_file_branch data_file_path subpath_replace_dict import_scan
        scan_is_flying raise_warning file_line st with
    | Except.error e => Except.error e
    | Except.ok st1 => Except.ok (StepOut.cont st1)
  else if st.get_memo then
    Except.ok (StepOut.cont {st with
      get_memo := false,
      info := {st.info with memo := some (pyRstrip file_line)}})
  else if pyStartsWith file_line "Date: " then
    match pySplitIndex1 "Date: " (pyStrip file_line) with
    | Option.none => Except.error BcsErr.indexError
    | some value_str =>
        match py_parse_mdY value_str with
        | Option.none => Except.error BcsErr.valueError
        | some d =>
            Except.ok (StepOut.cont
              {st with info := {st.info with date := some d}})
  else if pyStartsWith file_line "Flying Scan" then
    Except.ok (StepOut.cont {st with
      get_motor_name := true,
      info := {st.info with
        flying := true,
        scan_type := some "Single Motor"}})
  else if pyStartsWith file_line "Start, Stop, Increment" then
    Except.ok (StepOut.cont {st with
      get_motor_name := true,
      info := {st.info with scan_type := some "Single Motor"}})
  else if pyStartsWith file_line "From File" then
    Except.ok (StepOut.cont {st with
      get_pause_motor_name := true,
      info := {st.info with scan_type := some "Trajectory"}})
  else if pyStartsWith file_line "Start" then
    match pySplitIndex1 "Start: " (pyStrip file_line) with
    | Option.none => Except.error BcsErr.indexError
    | some value_str =>
        match pyFloatExc value_str with
        | Except.error e => Except.error e
        | Except.ok q =>
            Except.ok (StepOut.cont
              {st with info := {st.info with motor_first := [q]}})
  else if pyStartsWith file_line "Stop" then
    match pySplitIndex1 "Stop: " (pyStrip file_line) with
    | Option.none => Except.error BcsErr.indexError
    | some value_str =>
        match pyFloatExc value_str with
        | Except.error e => Except.error e
        | Except.ok q =>
            Except.ok (StepOut.cont
              {st with info := {st.info with motor_last := [q]}})
  else if pyStartsWith file_line "Increment" then
    match pySplitIndex1 "Increment: " (pyStrip file_line) with
    | Option.none => Except.error BcsErr.indexError
    | some value_str =>
        match pyFloatExc value_str with
        | Except.error e => Except.error e
        | Except.ok q =>
            Except.ok (StepOut.cont
              {st with info := {st.info with motor_step := [q]}})
  else if pyStartsWith file_line "X Center" then
    match pySplitIndex1 "X Center: " (pyStrip file_line) with
    | Option.none => Except.error BcsErr.indexError
    | some value_str =>
        match pyFloatExc value_str with
        | Except.error e => Except.error e
        | Except.ok q =>
            Except.ok (StepOut.cont
              {st with info := {st.info with motor_velocity := some [q]}})
  else if pyStartsWith file_line "Delay " then
    match pySplitIndex1 "Delay After Move (s): " (pyStrip file_line) with
    | Option.none => Except.error BcsErr.indexError
    | some value_str =>
        match pyFloatExc value_str with
        | Except.error e => Except.error e
        | Except.ok q =>
            Except.ok (StepOut.cont
              {st with info := {st.info with delay_sec := some q}})
  else if pyStartsWith file_line "Count " then
    match pySplitIndex1 "Count Time (s): " (pyStrip file_line) with
    | Option.none => Except.error BcsErr.indexError
    | some value_str =>
        match pyFloatExc value_str with
        | Except.error e => Except.error e
        | Except.ok q =>
            Except.ok (StepOut.cont
              {st with info := {st.info with count_sec := some q}})
  else if pyStartsWith file_line "Scan Number" then
    match pySplitIndex1 "Scan Number: " (pyStrip file_line) with
    | Option.none => Except.error BcsErr.indexError
    | some value_str =>
        match pyInt value_str with
        | some n =>
            Except.ok (StepOut.cont {st with info :=
              {st.info with repeat_number := some (Sum.inl n)}})
        | Option.none =>
            Except.ok (StepOut.cont {st with info :=
              {st.info with repeat_number := some (Sum.inr value_str)}})
  else if pyStartsWith file_line "Bi-directional" then
    match pySplitIndex1 "Bi-directional: " (pyStrip file_line) with
    | Option.none => Except.error BcsErr.indexError
    | some value_str =>
        Except.ok (StepOut.cont {st with info :=
          {st.info with bidirect := some (value_str = "Yes")}})
  else if pyStartsWith file_line "Stay " then
    match pySplitIndex1 "Stay at End: " (pyStrip file_line) with
    | Option.none => Except.error BcsErr.indexError
    | some value_str =>
        Except.ok (StepOut.cont {st with info :=
          {st.info with stay_at_end := some (value_str ≠ "")}})
  else if pyStartsWith file_line "Decription " then
    match pySplitIndex1 "Description Length: " (pyStrip file_line) with
    | Option.none => Except.error BcsErr.indexError
    | some value_str =>
        Except.ok (StepOut.cont {st with get_memo := (value_str ≠ "")})
  else if py_digit_leading file_line then
    if st.is_time_scan then
      match handle_time_scan_numbers header_linenum file_line st.get_memo
          st.info with
      | Except.error e => Except.error e
      | Except.ok (handled, gm1, info1) =>
          if handled then
            Except.ok (StepOut.cont {st with get_memo := gm1, info := info1})
          else if header_linenum = 1 then
            match handle_time_scan_numbers 1 file_line gm1
                {info1 with scan_type := some "Time"} with
            | Except.error e => Except.error e
            | Except.ok (_, gm2, info2) =>
                Except.ok (StepOut.cont {st with
                  is_time_scan := true,
                  get_memo := gm2, info := info2})
          else
            Except.ok (StepOut.stop {st with
              get_memo := gm1,
              info := {info1 with
                motor_header_linenum := some ((header_linenum : Int) - 1)}})
    else if header_linenum = 1 then
      match handle_time_scan_numbers 1 file_line st.get_memo
          {st.info with scan_type := some "Time"} with
      | Except.error e => Except.error e
      | Except.ok (_, gm2, info2) =>
          Except.ok (StepOut.cont {st with
            is_time_scan := true,
            get_memo := gm2, info := info2})
    else
      Except.ok (StepOut.stop {st with info := {st.info with
        motor_header_linenum := some ((header_linenum : Int) - 1)}})
  else
    Except.ok (StepOut.cont st)

/-- Enumeration loop of get_data_file_header over the data file lines. -/
def data_header_run (data_file_path : String)
    (subpath_replace_dict : List (String × String))
    (import_scan : String → Option Int → Except BcsErr MotorTable)
    (scan_is_flying : String → Except BcsErr Bool) (raise_warning : Bool) :
    List (Nat × String) → ParserSt → Except BcsErr ParserSt
  | [], st => Except.ok st
  | (header_linenum, file_line) :: rest, st =>
    match data_header_step data_file_path subpath_replace_dict import_scan
        scan_is_flying raise_warning header_linenum file_line st with
    | Except.error e => Except.error e
    | Except.ok (StepOut.stop st1) => Except.ok st1
    | Except.ok (StepOut.cont st1) =>
        data_header_run data_file_path subpath_replace_dict import_scan
          scan_is_flying raise_warning rest st1

/-- Embedding of get_data_file_header (ingest.py): the data file is given
as its list of lines; the result is the header_info record together with
the row warnings reported while parsing. -/
def get_data_file_header (data_file_path : String)
    (subpath_replace_dict : List (String × String))
    (import_scan : String → Option Int → Except BcsErr MotorTable)
    (scan_is_flying : String → Except BcsErr Bool) (raise_warning : Bool)
    (lines : List String) : Except BcsErr (HeaderInfo × List RowWarning) :=
  match data_header_run data_file_path subpath_replace_dict import_scan
      scan_is_flying raise_warning lines.enum {} with
  | Except.error e => Except.error e
  | Except.ok st => Except.ok (st.info, st.warnings)

/-! ### Concrete inputs used by the theorems -/

/-- A scan file with a motor header on line 0 and three sub-scans: lines
1 and 2 (sub-scan 1), line 4 (sub-scan 2), line 6 (sub-scan 3). -/
def demo_scan_lines : List String :=
  ["Motor1\tMotor2\n", "1\t2\n", "2\t3\n", "File 2\n", "3\t4\n",
   "File 3\n", "5\t6\n"]

/-- Scan-file import oracle for data files that never reach the scan-file
resolution branch. -/
def no_import : String → Option Int → Except BcsErr MotorTable :=
  fun _ _ => Except.error BcsErr.fileNotFound

/-- is_flying_scan oracle for data files that never reach the scan-file
resolution branch. -/
def no_flying : String → Except BcsErr Bool :=
  fun _ => Except.ok false

/-- Parser state in which scan_type has already been set, for the
write-once analysis. -/
def demo_parser_state : ParserSt :=
  { info := { scan_type := some "Single Motor" } }

/-- Expected outcome of one parser step on the line Stop: 5 from
demo_parser_state. -/
def demo_step_out : StepOut :=
  StepOut.cont { demo_parser_state with
    info := { demo_parser_state.info with motor_last := [(5 : ℚ)] } }

/-! ### Theorems -/

/-- Claim C1, counterexample.  get_scan_line_numbers does not wrap a
file_number beyond the sub-scan count: on a scan file with 3 sub-scans,
file_number 5 yields the NOT-FOUND sentinel (-1, -1), which differs from
the range (4, 4) of sub-scan 2 that wrapping (5 mod 3 = 2) would give;
file_number 3 does return its own range. -/
theorem scan_line_numbers_wrap_counterexample :
    get_scan_line_numbers "demo.scn" demo_scan_lines (some 5) =
      Except.ok (-1, -1) ∧
    get_scan_line_numbers "demo.scn" demo_scan_lines (some 2) =
      Except.ok (4, 4) ∧
    get_scan_line_numbers "demo.scn" demo_scan_lines (some 3) =
      Except.ok (6, 6) ∧
    sub_scan_count demo_scan_lines 0 = 3 :=
  ⟨rfl, rfl, rfl, rfl⟩

/-- Claim C2.  The flying-motor step loop of get_data_file_header fails on
every non-empty flying column, even one whose single descriptor cell is
perfectly well-formed: the per-step guard tests the whole numpy column
object against str instead of the cell, so the very first step takes the
warning path, and building that warning raises TypeError (its description
is the unsubscriptable ROW_ERROR.FLYING_COMMAND enum member) in both the
non-strict and the strict mode.  No step is ever parsed into
motor_first/motor_last/motor_step/motor_velocity. -/
theorem flying_steps_always_fail :
    flying_parse_steps "fly.scn" (some 1) false
      [PyObj.pystr "flying(1,2,3,4)"] [] = Except.error BcsErr.typeError ∧
    flying_parse_steps "fly.scn" (some 1) true
      [PyObj.pystr "flying(1,2,3,4)"] [] = Except.error BcsErr.typeError :=
  ⟨rfl, rfl⟩

/-- Claim C5, counterexample.  The claim says a decode error occurs exactly
when no numeric scan id is extractable: but for data.txt (no scan id at
all) the code returns (None, None, None) without any error, and for
XScan7_a.txt (scan id 7 is present) the code raises ValueError on the
non-numeric text after the underscore. -/
theorem path_codec_error_counterexample :
    get_data_file_numbers "data.txt" =
      Except.ok (Option.none, Option.none, Option.none) ∧
    get_data_file_numbers "XScan7_a.txt" = Except.error BcsErr.valueError :=
  ⟨rfl, rfl⟩

/-- Claim C6, counterexample.  scan_type is not write-once: on a data file
whose header holds a Start, Stop, Increment line (scan_type set to Single
Motor), a motor-name line, and then a From File line, the final parse
result carries scan_type Trajectory, overwriting the Single Motor value
the first line had set. -/
theorem scan_type_overwrite_counterexample :
    ((data_header_step "TrajScan0001.txt" [] no_import no_flying false 0
        "Start, Stop, Increment\n" {}).map
      (fun o => o.state.info.scan_type) = Except.ok (some "Single Motor")) ∧
    ((get_data_file_header "TrajScan0001.txt" [] no_import no_flying false
        ["Start, Stop, Increment\n", "MotorA\n", "From File\n"]).map
      (fun r => r.1.scan_type) = Except.ok (some "Trajectory")) :=
  ⟨rfl, rfl⟩

/-- Claim C9.  The memo-capture keyword of get_data_file_header is the
misspelled Decription, so a correctly spelled Description Length: line is
ignored and the following line is never captured as the memo; and a line
that does start with Decription raises IndexError, because the split
separator inside the branch is spelled Description Length: and never
matches. -/
theorem description_length_memo_not_captured :
    ((get_data_file_header "SigScan0001.txt" [] no_import no_flying false
        ["Description Length: 5\n", "my memo\n"]).map
      (fun r => r.1.memo) = Except.ok Option.none) ∧
    (get_data_file_header "SigScan0001.txt" [] no_import no_flying false
        ["Decription Length: 5\n"] = Except.error BcsErr.indexError) :=
  ⟨rfl, rfl⟩

/-- Claim C4.  For every data-file path whose basename with the extension
stripped is XScan0007-0003_0002, get_data_file_numbers returns scan 7,
file 2, repeat 3; and for every path whose stripped basename is the
space-separated XScan12 3, it returns scan 12, file 3 and no repeat. -/
theorem path_codec_decode_examples (p q : String)
    (hp : pySplitextRoot (pyBasename p) = "XScan0007-0003_0002")
    (hq : pySplitextRoot (pyBasename q) = "XScan12 3") :
    get_data_file_numbers p = Except.ok (some 7, some 2, some 3) ∧
    get_data_file_numbers q =
      Except.ok (some 12, some 3, Option.none) := by
  unfold get_data_file_numbers
  rw [hp, hq]
  exact ⟨rfl, rfl⟩

/-- Witness for C4 at two concrete paths. -/
theorem path_codec_decode_examples_witness :
    pySplitextRoot (pyBasename "XScan0007-0003_0002.txt") =
      "XScan0007-0003_0002" ∧
    pySplitextRoot (pyBasename "/data/XScan12 3.dat") = "XScan12 3" ∧
    (get_data_file_numbers "XScan0007-0003_0002.txt" =
        Except.ok (some 7, some 2, some 3) ∧
      get_data_file_numbers "/data/XScan12 3.dat" =
        Except.ok (some 12, some 3, Option.none)) :=
  ⟨rfl, rfl, path_codec_decode_examples _ _ rfl rfl⟩

/-- When every line of a scan file is blank, a comment, or fails the
header-detection predicate, the header scan finds nothing. -/
lemma find_header_none (lines : List String)
    (h : ∀ l ∈ lines, is_blank_or_comment l = true ∨
      header_line_pred l = Except.ok false) :
    ∀ i k, find_header lines i k = Except.ok Option.none := by
  induction lines with
  | nil => intro i k; rfl
  | cons l rest ih =>
      intro i k
      have hl := h l (List.mem_cons_self _ _)
      have hrest := fun x hx => h x (List.mem_cons_of_mem _ hx)
      by_cases hb : is_blank_or_comment l
      · simp [find_header, hb, ih hrest]
      · rcases hl with hl | hl
        · exact absurd hl hb
        · simp [find_header, hb, hl, ih hrest]

/-- Claim C3.  For every scan file in which no line, beyond the skipped
blank and comment lines, matches the header-detection predicate,
get_scan_header_line_number with raise_exception=True does not raise the
documented ScanFileHeaderNotFoundError: it attempts to construct that
error with the scan-file path passed positionally, the constructor's
keyword-only scan_file_path parameter rejects the call, and TypeError is
raised instead, carrying no scan-file path. -/
theorem header_not_found_raises_type_error (scan_file_path : String)
    (lines : List String)
    (h : ∀ l ∈ lines,
      is_blank_or_comment l = true ∨ header_line_pred l = Except.ok false) :
    get_scan_header_line_number scan_file_path lines true =
      Except.error BcsErr.typeError := by
  unfold get_scan_header_line_number
  rw [find_header_none lines h 0 0]
  rfl

/-- Witness for C3 on a two-line scan file with a comment and a word. -/
theorem header_not_found_raises_type_error_witness :
    (∀ l ∈ ["# comment\n", "hello\n"],
      is_blank_or_comment l = true ∨
        header_line_pred l = Except.ok false) ∧
    get_scan_header_line_number "scan.txt" ["# comment\n", "hello\n"] true =
      Except.error BcsErr.typeError :=
  ⟨by decide, header_not_found_raises_type_error "scan.txt" _ (by decide)⟩

/-- Running the header scan across a block of blank or comment lines
advances the index and the skipped counter together. -/
lemma find_header_skip_blanks (mid : List String)
    (hmid : ∀ x ∈ mid, is_blank_or_comment x = true) :
    ∀ (rest : List String) (i k : Nat),
      find_header (mid ++ rest) i k =
        find_header rest (i + mid.length) (k + mid.length) := by
  induction mid with
  | nil => intro rest i k; simp
  | cons m ms ih =>
      intro rest i k
      have hm := hmid m (List.mem_cons_self _ _)
      have hms := fun x hx => hmid x (List.mem_cons_of_mem _ hx)
      calc find_header ((m :: ms) ++ rest) i k
          = find_header (ms ++ rest) (i + 1) (k + 1) := by
            simp [find_header, hm]
        _ = find_header rest ((i + 1) + ms.length) ((k + 1) + ms.length) :=
            ih hms rest (i + 1) (k + 1)
        _ = find_header rest (i + (m :: ms).length) (k + (m :: ms).length) := by
            congr 1 <;> simp <;> omega

/-- Running the header scan across a nonempty block of non-matching lines
whose last line is not blank advances the index and resets the skipped
counter. -/
lemma find_header_skip_pre (pre : List String) :
    pre ≠ [] →
    (∀ x ∈ pre, is_blank_or_comment x = false →
      header_line_pred x = Except.ok false) →
    (∀ x, pre.getLast? = some x → is_blank_or_comment x = false) →
    ∀ (rest : List String) (i k : Nat),
      find_header (pre ++ rest) i k = find_header rest (i + pre.length) 0 := by
  induction pre with
  | nil => intro h; exact absurd rfl h
  | cons p ps ih =>
      intro _ hpre hlast rest i k
      cases ps with
      | nil =>
          have hpb : is_blank_or_comment p = false := hlast p rfl
          have hpp : header_line_pred p = Except.ok false :=
            hpre p (by simp) hpb
          simp [find_header, hpb, hpp]
      | cons q qs =>
          have hlast2 : ∀ x, (q :: qs).getLast? = some x →
              is_blank_or_comment x = false := by
            intro x hx
            exact hlast x (by rw [List.getLast?_cons_cons]; exact hx)
          have hpre2 := fun x hx h2 => hpre x (List.mem_cons_of_mem _ hx) h2
          by_cases hpb : is_blank_or_comment p
          · calc find_header ((p :: q :: qs) ++ rest) i k
                = find_header ((q :: qs) ++ rest) (i + 1) (k + 1) := by
                  simp [find_header, hpb]
              _ = find_header rest ((i + 1) + (q :: qs).length) 0 :=
                  ih (by simp) hpre2 hlast2 rest (i + 1) (k + 1)
              _ = find_header rest (i + (p :: q :: qs).length) 0 := by
                  congr 1 <;> simp <;> omega
          · have hpp := hpre p (List.mem_cons_self _ _) (by simpa using hpb)
            calc find_header ((p :: q :: qs) ++ rest) i k
                = find_header ((q :: qs) ++ rest) (i + 1) 0 := by
                  simp [find_header, hpb, hpp]
              _ = find_header rest ((i + 1) + (q :: qs).length) 0 :=
                  ih (by simp) hpre2 hlast2 rest (i + 1) 0
              _ = find_header rest (i + (p :: q :: qs).length) 0 := by
                  congr 1 <;> simp <;> omega

/-- Claim C10.  For a scan file made of a block of non-matching lines
(ending in a non-blank line, or empty), then a block of blank or comment
lines, then the first predicate-matching line, the returned header index
is the index of that matching line minus (the count of consecutive
skipped lines immediately before it, plus one) - and no exception is
raised whatever raise_exception is, so a file whose very first line
matches yields -1. -/
theorem header_index_formula (scan_file_path : String)
    (pre mid : List String) (l : String) (rest : List String)
    (raise_exception : Bool)
    (hpre : ∀ x ∈ pre, is_blank_or_comment x = false →
      header_line_pred x = Except.ok false)
    (hlast : ∀ x, pre.getLast? = some x → is_blank_or_comment x = false)
    (hmid : ∀ x ∈ mid, is_blank_or_comment x = true)
    (hl : is_blank_or_comment l = false)
    (hp : header_line_pred l = Except.ok true) :
    get_scan_header_line_number scan_file_path (pre ++ mid ++ l :: rest)
      raise_exception =
      Except.ok (((pre.length + mid.length : Nat) : Int) -
        (((mid.length : Nat) : Int) + 1)) := by
  have hhead : ∀ i k : Nat, find_header (l :: rest) i k =
      Except.ok (some ((i : Int) - ((k : Int) + 1))) := by
    intro i k
    simp [find_header, hl, hp]
  have hfind : find_header (pre ++ mid ++ l :: rest) 0 0 =
      Except.ok (some (((pre.length + mid.length : Nat) : Int) -
        (((mid.length : Nat) : Int) + 1))) := by
    rcases eq_or_ne pre [] with hpe | hpe
    · subst hpe
      rw [List.nil_append,
        find_header_skip_blanks mid hmid (l :: rest) 0 0, hhead]
      congr 2
      push_cast [List.length_nil]
      omega
    · rw [List.append_assoc,
        find_header_skip_pre pre hpe hpre hlast (mid ++ l :: rest) 0 0,
        find_header_skip_blanks mid hmid (l :: rest) (0 + pre.length) 0,
        hhead]
      congr 2
      push_cast
      omega
  unfold get_scan_header_line_number
  rw [hfind]

/-- Witness for C10: a scan file whose very first line is a data line
returns -1 even with raise_exception=True. -/
theorem header_index_formula_witness :
    (is_blank_or_comment "1 2\n" = false ∧
      header_line_pred "1 2\n" = Except.ok true) ∧
    get_scan_header_line_number "scan.txt" ["1 2\n"] true = Except.ok (-1) :=
  ⟨⟨by decide, by decide⟩, by
    have h := header_index_formula "scan.txt" [] [] "1 2\n" [] true
      (by intro x hx; cases hx) (by intro x hx; cases hx)
      (by intro x hx; cases hx) (by decide) (by decide)
    simpa using h⟩

/-- The output_file_number counter of the get_scan_line_numbers loop never
decreases. -/
lemma sub_scan_loop_mono (hl : Int) :
    ∀ (rows : List (Nat × String)) (output : Int) (subscan_is_empty : Bool),
      output ≤ sub_scan_loop hl rows output subscan_is_empty := by
  intro rows
  induction rows with
  | nil => intro o e; simp [sub_scan_loop]
  | cons r rest ih =>
      intro o e
      obtain ⟨n, l⟩ := r
      simp only [sub_scan_loop]
      split_ifs
      all_goals
        first
          | exact ih _ _
          | exact le_trans (by omega : o ≤ o + 1) (ih (o + 1) true)

/-- When the requested file_number exceeds the sub-scan count still ahead
of the loop and no line is blank, the loop never assigns first_line or
last_line and falls off the end with the NOT-FOUND sentinel. -/
lemma scan_lines_loop_not_found (hl fn : Int) :
    ∀ (rows : List (Nat × String)) (output : Int) (subscan_is_empty : Bool),
      (∀ r ∈ rows, pyStrip r.2 ≠ "") →
      output < fn →
      sub_scan_loop hl rows output subscan_is_empty < fn →
      scan_lines_loop hl fn rows (-1) (-1) output subscan_is_empty =
        (-1, -1) := by
  intro rows
  induction rows with
  | nil =>
      intro o e _ _ _
      simp only [scan_lines_loop]
      split_ifs <;> rfl
  | cons r rest ih =>
      intro o e hblank ho hcount
      obtain ⟨n, l⟩ := r
      have hbr : ∀ x ∈ rest, pyStrip x.2 ≠ "" :=
        fun x hx => hblank x (List.mem_cons_of_mem _ hx)
      have hbl : pyStrip l ≠ "" := hblank (n, l) (List.mem_cons_self _ _)
      by_cases h1 : (n : Int) ≤ hl
      · simp only [sub_scan_loop, if_pos h1] at hcount
        simp only [scan_lines_loop, if_pos h1]
        exact ih o e hbr ho hcount
      · by_cases h2 : pyStartsWith (pyLower l) "file" = true
        · cases e with
          | true =>
              simp only [sub_scan_loop, if_neg h1, if_pos h2] at hcount
              simp only [scan_lines_loop, if_neg h1, if_pos h2]
              simp at hcount ⊢
              rw [if_neg (by omega : ¬ o = fn), if_neg (by omega : ¬ o > fn)]
              exact ih o true hbr ho hcount
          | false =>
              simp only [sub_scan_loop, if_neg h1, if_pos h2] at hcount
              simp only [scan_lines_loop, if_neg h1, if_pos h2]
              simp at hcount ⊢
              have hlt : o + 1 < fn :=
                lt_of_le_of_lt (sub_scan_loop_mono hl rest (o + 1) true)
                  hcount
              rw [if_neg (by omega : ¬ o + 1 = fn),
                if_neg (by omega : ¬ o + 1 > fn)]
              exact ih (o + 1) true hbr (by omega) hcount
        · by_cases h3 : pyStrip l ≠ "" ∧ ¬ pyStartsWith (pyStrip l) "#" = true
          · simp only [sub_scan_loop, if_neg h1, if_neg h2, if_pos h3]
              at hcount
            simp only [scan_lines_loop, if_neg h1, if_neg h2, if_pos h3]
            rw [if_neg (by omega : ¬ o = fn)]
            exact ih o false hbr ho hcount
          · have h4 : ¬ (pyStrip l = "" ∧ e = true) := by
              intro hc
              exact hbl hc.1
            simp only [sub_scan_loop, if_neg h1, if_neg h2, if_neg h3]
              at hcount
            simp only [scan_lines_loop, if_neg h1, if_neg h2, if_neg h3,
              if_neg h4]
            exact ih o e hbr ho hcount

/-- Claim C1, amended.  When file_number exceeds the number of sub-scans
the loop finds, get_scan_line_numbers returns the NOT-FOUND sentinel
(-1, -1) instead of wrapping modulo the sub-scan count (stated for scan
files with no blank lines, whose blank-line adjustment never fires). -/
theorem scan_line_numbers_no_wrap (scan_file_path : String)
    (lines : List String) (file_number : Int)
    (header_linenum : Int)
    (hheader : find_header lines 0 0 = Except.ok (some header_linenum))
    (hblank : ∀ l ∈ lines, pyStrip l ≠ "")
    (hcount : sub_scan_count lines header_linenum < file_number) :
    get_scan_line_numbers scan_file_path lines (some file_number) =
      Except.ok (-1, -1) := by
  have h1 : (1 : Int) ≤ sub_scan_count lines header_linenum := by
    unfold sub_scan_count
    exact sub_scan_loop_mono header_linenum lines.enum 1 true
  have hfn2 : 2 ≤ file_number := by omega
  have hblank2 : ∀ r ∈ lines.enum, pyStrip r.2 ≠ "" := by
    intro r hr
    exact hblank r.2 (by
      have := List.mem_enum_iff_getElem?.mp hr
      exact List.getElem?_mem this)
  have hhl : get_scan_header_line_number scan_file_path lines true =
      Except.ok header_linenum := by
    unfold get_scan_header_line_number
    rw [hheader]
  unfold get_scan_line_numbers
  rw [hhl]
  simp only [if_neg (by omega : ¬ file_number = 0),
    if_neg (by omega : ¬ file_number = 1)]
  exact congrArg Except.ok
    (scan_lines_loop_not_found header_linenum file_number lines.enum 1
      true hblank2 (by omega) hcount)

/-- Witness for C1 at the three-sub-scan demo file with file_number 5. -/
theorem scan_line_numbers_no_wrap_witness :
    (find_header demo_scan_lines 0 0 = Except.ok (some 0) ∧
      sub_scan_count demo_scan_lines 0 < 5) ∧
    get_scan_line_numbers "demo.scn" demo_scan_lines (some 5) =
      Except.ok (-1, -1) :=
  ⟨⟨by decide, by decide⟩,
    scan_line_numbers_no_wrap "demo.scn" demo_scan_lines 5 0 (by decide)
      (by decide) (by decide)⟩

/-- The head of a duplicate-free column list is never one of the excess
unnamed labels, so the clean-up never empties the columns. -/
lemma drop_excess_unnamed_ne_nil (columns : List String)
    (hne : columns ≠ []) (hnd : columns.Nodup) :
    drop_excess_unnamed columns ≠ [] := by
  obtain ⟨h, t, rfl⟩ : ∃ h t, columns = h :: t := by
    cases columns with
    | nil => exact absurd rfl hne
    | cons h t => exact ⟨h, t, rfl⟩
  have hnotmem : h ∉ t := (List.nodup_cons.mp hnd).1
  have hsurvives :
      h ∉ ((h :: t).filter (fun c => pyStartsWith c "Unnamed")).drop 1 := by
    by_cases hp : pyStartsWith h "Unnamed" = true
    · rw [List.filter_cons, if_pos hp]
      simp only [List.drop_one, List.tail_cons]
      intro hmem
      exact hnotmem (List.mem_of_mem_filter hmem)
    · rw [List.filter_cons, if_neg hp]
      intro hmem
      have := List.mem_of_mem_drop hmem
      have := List.of_mem_filter this
      simp [hp] at this
  unfold drop_excess_unnamed
  intro hempty
  have : h ∈ (h :: t).filter
      (fun c => c ∉ ((h :: t).filter
        (fun c => pyStartsWith c "Unnamed")).drop 1) := by
    rw [List.mem_filter]
    exact ⟨List.mem_cons_self _ _, by simpa using hsurvives⟩
  rw [hempty] at this
  cases this

/-- Applying a nonempty flying-motor name to a nonempty column list puts
that name in the last position, in both the rename branch and the
missing-delimiter repair branch. -/
lemma apply_flying_name_getLast (flying_name : String)
    (columns1 : List String) (hne : columns1 ≠ [])
    (hnm : flying_name ≠ "") :
    (apply_flying_name flying_name columns1).getLast? = some flying_name := by
  unfold apply_flying_name
  rw [if_pos hnm]
  cases hlast : columns1.getLast? with
  | none =>
      exact absurd (List.getLast?_eq_none_iff.mp hlast) hne
  | some lastCol =>
      dsimp only
      by_cases hu : pyStartsWith lastCol "Unnamed" = true
      · rw [if_pos hu, List.getLast?_concat]
      · rw [if_neg hu]
        cases columns1 with
        | nil => exact absurd rfl hne
        | cons c0 restCols =>
            dsimp only
            rw [← List.cons_append, List.getLast?_concat]

/-- Claim C7.  For every scan file whose first line declares a flying
motor (is_flying_scan extracts a nonempty motor name), the parsed table's
last column name equals the declared flying-motor name, whatever the raw
parsed columns were - trailing unnamed column or missing delimiter. -/
theorem flying_column_rename (scan_file_first_line : String)
    (header_linenum : Int) (flying_name : String) (columns : List String)
    (hfly : is_flying_scan_motor header_linenum scan_file_first_line =
      (true, some flying_name))
    (hnm : flying_name ≠ "")
    (hne : columns ≠ []) (hnd : columns.Nodup) :
    (parse_scan_file_columns scan_file_first_line header_linenum
        columns).getLast? = some flying_name := by
  unfold parse_scan_file_columns
  rw [hfly]
  exact apply_flying_name_getLast flying_name (drop_excess_unnamed columns)
    (drop_excess_unnamed_ne_nil columns hne hnd) hnm

/-- Witness for C7: the rename branch (trailing unnamed column) and the
repair branch (named last column) at a flying first line. -/
theorem flying_column_rename_witness :
    (is_flying_scan_motor 3 "Flying Mot1 (0, 1, 0.1)\n" =
      (true, some "Mot1")) ∧
    (parse_scan_file_columns "Flying Mot1 (0, 1, 0.1)\n" 3
        ["A", "B", "Unnamed: 2"]).getLast? = some "Mot1" ∧
    (parse_scan_file_columns "Flying Mot1 (0, 1, 0.1)\n" 3
        ["A", "B", "C"]).getLast? = some "Mot1" :=
  ⟨by decide,
    flying_column_rename _ 3 "Mot1" _ (by decide) (by decide) (by decide)
      (by decide),
    flying_column_rename _ 3 "Mot1" _ (by decide) (by decide) (by decide)
      (by decide)⟩

/-- Claim C8.  In the Time-scan positional sub-state, an acquire line
(position 4, the fourth digit-leading header line) with at least five
whitespace-separated tokens whose second parses to period_sec and fifth
to count_sec sets count_sec to the fifth value and delay_sec to
max(0, period - count), which is never negative. -/
theorem time_scan_acquire_line (file_line : String) (get_memo : Bool)
    (header_info : HeaderInfo) (t1 t4 : String) (period_sec count_sec : ℚ)
    (hdigit : py_digit_leading file_line = true)
    (ht1 : (pySplitWs (pyStrip file_line)).get? 1 = some t1)
    (ht4 : (pySplitWs (pyStrip file_line)).get? 4 = some t4)
    (hp : pyFloat t1 = some period_sec)
    (hc : pyFloat t4 = some count_sec) :
    handle_time_scan_numbers 4 file_line get_memo header_info =
      Except.ok (true, get_memo,
        { header_info with
          count_sec := some count_sec,
          delay_sec := some (max 0 (period_sec - count_sec)) }) ∧
    (0 : ℚ) ≤ max 0 (period_sec - count_sec) := by
  refine ⟨?_, le_max_left 0 _⟩
  rcases htoks : pySplitWs (pyStrip file_line) with _ | ⟨a0, toks1⟩
  · rw [htoks] at ht4; cases ht4
  rcases toks1 with _ | ⟨a1, toks2⟩
  · rw [htoks] at ht4; cases ht4
  rcases toks2 with _ | ⟨a2, toks3⟩
  · rw [htoks] at ht4; cases ht4
  rcases toks3 with _ | ⟨a3, toks4⟩
  · rw [htoks] at ht4; cases ht4
  rcases toks4 with _ | ⟨a4, toksRest⟩
  · rw [htoks] at ht4; cases ht4
  rw [htoks] at ht1 ht4
  simp only [List.get?] at ht1 ht4
  cases ht1
  cases ht4
  unfold handle_time_scan_numbers
  rw [htoks]
  simp [hp, hc]

/-- Witness for C8 at a concrete acquire line: period 2 seconds, count 1
second, delay 1 second. -/
theorem time_scan_acquire_line_witness :
    (py_digit_leading "9 2 0 0 1\n" = true ∧
      (pySplitWs (pyStrip "9 2 0 0 1\n")).get? 1 = some "2" ∧
      (pySplitWs (pyStrip "9 2 0 0 1\n")).get? 4 = some "1" ∧
      pyFloat "2" = some (2 : ℚ) ∧
      pyFloat "1" = some (1 : ℚ)) ∧
    (handle_time_scan_numbers 4 "9 2 0 0 1\n" false {} =
        Except.ok (true, false,
          { ({} : HeaderInfo) with
            count_sec := some (1 : ℚ),
            delay_sec := some (max 0 ((2 : ℚ) - (1 : ℚ))) }) ∧
      (0 : ℚ) ≤ max 0 ((2 : ℚ) - (1 : ℚ))) :=
  ⟨⟨by decide, by decide, by decide, by decide, by decide⟩,
    time_scan_acquire_line "9 2 0 0 1\n" false {} "2" "1"
      (2 : ℚ) (1 : ℚ) (by decide) (by decide) (by decide)
      (by decide) (by decide)⟩

/-- A suffix-number step succeeds when its token is numeric or absent, and
yields null exactly for an absent token. -/
lemma int_token_ok (t : Option String)
    (h : ∀ tok, t = some tok → (pyInt tok).isSome) :
    ∃ v : Option Int, int_token t = Except.ok v ∧
      (t = Option.none → v = Option.none) := by
  cases t with
  | none => exact ⟨Option.none, rfl, fun _ => rfl⟩
  | some tok =>
      obtain ⟨n, hn⟩ := Option.isSome_iff_exists.mp (h tok rfl)
      exact ⟨some n, by simp [int_token, hn], fun hc => by cases hc⟩

/-- The Scan-remainder step succeeds when the remainder is numeric, or its
last-space-split left part is numeric and its right part (when present) is
numeric; the repeat number passes through unchanged. -/
lemma scan_token_ok (t : String) (f r : Option Int)
    (h : (pyInt t).isSome ∨
      ((pyInt (pyRsplitOnce " " t).1).isSome ∧
        ∀ m, (pyRsplitOnce " " t).2 = some m → (pyInt m).isSome)) :
    ∃ s fv, scan_token t f r = Except.ok (some s, fv, r) := by
  unfold scan_token
  rcases h with h | ⟨hleft, hright⟩
  · obtain ⟨n, hn⟩ := Option.isSome_iff_exists.mp h
    exact ⟨n, f, by simp [hn]⟩
  · obtain ⟨n, hn⟩ := Option.isSome_iff_exists.mp hleft
    cases hpi : pyInt t with
    | some k => exact ⟨k, f, by simp [hpi]⟩
    | none =>
        cases hsp : (pyRsplitOnce " " t).2 with
        | none => exact ⟨n, f, by simp [hpi, hn, hsp]⟩
        | some m =>
            obtain ⟨fn, hfn⟩ := Option.isSome_iff_exists.mp (hright m hsp)
            exact ⟨n, some fn, by simp [hpi, hn, hsp, hfn]⟩

/-- Claim C5, amended.  get_data_file_numbers succeeds whenever every
token it converts is numeric or absent: a present text after the
rightmost underscore or (after peeling it) the rightmost hyphen must be
numeric, and a present text after Scan must be numeric or have a numeric
last-space-split (with a numeric right part when one exists).  On
success, scan is null when there is no Scan token, repeat is null when
there is no hyphen token, and file is null when there is neither an
underscore token nor a Scan token (the Scan fallback can set file). -/
theorem path_codec_success_amended (data_file_path : String)
    (s1 s2 s3 : String × Option String)
    (hs1 : s1 = pyRsplitOnce "_" (pySplitextRoot (pyBasename data_file_path)))
    (hs2 : s2 = pyRsplitOnce "-" s1.1)
    (hs3 : s3 = pyRsplitOnce "Scan" s2.1)
    (h1 : ∀ tok, s1.2 = some tok → (pyInt tok).isSome)
    (h2 : ∀ tok, s2.2 = some tok → (pyInt tok).isSome)
    (h3 : ∀ t, s3.2 = some t →
      (pyInt t).isSome ∨
        ((pyInt (pyRsplitOnce " " t).1).isSome ∧
          ∀ m, (pyRsplitOnce " " t).2 = some m → (pyInt m).isSome)) :
    ∃ ids : Option Int × Option Int × Option Int,
      get_data_file_numbers data_file_path = Except.ok ids ∧
      (s3.2 = Option.none → ids.1 = Option.none) ∧
      (s2.2 = Option.none → ids.2.2 = Option.none) ∧
      (s1.2 = Option.none → s3.2 = Option.none →
        ids.2.1 = Option.none) := by
  obtain ⟨f0, hf0, hf0n⟩ := int_token_ok s1.2 h1
  obtain ⟨r0, hr0, hr0n⟩ := int_token_ok s2.2 h2
  cases hscan : s3.2 with
  | none =>
      refine ⟨(Option.none, f0, r0), ?_, fun _ => rfl, fun h => hr0n h,
        fun ha _ => hf0n ha⟩
      unfold get_data_file_numbers decode_basename_root
      rw [← hs1, ← hs2, ← hs3, hf0, hr0, hscan]
  | some t =>
      obtain ⟨sn, fv, hst⟩ := scan_token_ok t f0 r0 (h3 t hscan)
      refine ⟨(some sn, fv, r0), ?_, ?_, fun h => hr0n h, ?_⟩
      · unfold get_data_file_numbers decode_basename_root
        rw [← hs1, ← hs2, ← hs3, hf0, hr0, hscan]
        exact hst
      · intro hc; cases hc
      · intro _ hc; cases hc

/-- Witness for C5 at MotScan0042.txt: no underscore token, no hyphen
token, Scan token 0042; decode succeeds and repeat defaults to null. -/
theorem path_codec_success_amended_witness :
    ((pyRsplitOnce "-"
        (pyRsplitOnce "_" (pySplitextRoot (pyBasename
          "MotScan0042.txt"))).1).2 = Option.none) ∧
    ∃ ids : Option Int × Option Int × Option Int,
      get_data_file_numbers "MotScan0042.txt" = Except.ok ids ∧
      ids.2.2 = Option.none := by
  refine ⟨by decide, ?_⟩
  obtain ⟨ids, hok, _, hrep, _⟩ := path_codec_success_amended
    "MotScan0042.txt" _ _ _ rfl rfl rfl
    (fun tok h => by
      rw [show (pyRsplitOnce "_"
          (pySplitextRoot (pyBasename "MotScan0042.txt"))).2 =
        Option.none from by decide] at h
      cases h)
    (fun tok h => by
      rw [show (pyRsplitOnce "-" (pyRsplitOnce "_"
          (pySplitextRoot (pyBasename "MotScan0042.txt"))).1).2 =
        Option.none from by decide] at h
      cases h)
    (fun t h => by
      rw [show (pyRsplitOnce "Scan" (pyRsplitOnce "-" (pyRsplitOnce "_"
          (pySplitextRoot (pyBasename "MotScan0042.txt"))).1).1).2 =
        some "0042" from by decide] at h
      cases h
      exact Or.inl (by decide))
  exact ⟨ids, hok, hrep (by decide)⟩

/-- handle_time_scan_numbers never writes scan_type. -/
lemma handle_time_scan_numbers_scan_type (header_linenum : Nat)
    (file_line : String) (get_memo : Bool) (header_info : HeaderInfo)
    (r : Bool × Bool × HeaderInfo)
    (h : handle_time_scan_numbers header_linenum file_line get_memo
      header_info = Except.ok r) :
    r.2.2.scan_type = header_info.scan_type := by
  simp only [handle_time_scan_numbers] at h
  repeat' split at h
  all_goals first
    | (cases h; rfl)
    | cases h

/-- The scan-file resolution branch never writes scan_type. -/
lemma scan_file_branch_scan_type (data_file_path : String)
    (subpath_replace_dict : List (String × String))
    (import_scan : String → Option Int → Except BcsErr MotorTable)
    (scan_is_flying : String → Except BcsErr Bool)
    (raise_warning : Bool) (file_line : String) (st st1 : ParserSt)
    (h : scan_file_branch data_file_path subpath_replace_dict import_scan
      scan_is_flying raise_warning file_line st = Except.ok st1) :
    st1.info.scan_type = st.info.scan_type := by
  simp only [scan_file_branch] at h
  repeat' split at h
  all_goals first
    | (cases h; rfl)
    | cases h

/-- Claim C6, amended.  A header line overwrites an already-set scan_type
only if it is itself a scan-type trigger: a line starting with Flying
Scan, Start, Stop, Increment, or From File, or a digit-leading line at
file-line index 1 (the implicit Time trigger).  Any other line leaves
scan_type exactly as it was, whatever the parser state. -/
theorem scan_type_overwrite_only_triggers (data_file_path : String)
    (subpath_replace_dict : List (String × String))
    (import_scan : String → Option Int → Except BcsErr MotorTable)
    (scan_is_flying : String → Except BcsErr Bool) (raise_warning : Bool)
    (header_linenum : Nat) (file_line : String) (st : ParserSt)
    (out : StepOut)
    (h1 : pyStartsWith file_line "Flying Scan" = false)
    (h2 : pyStartsWith file_line "Start, Stop, Increment" = false)
    (h3 : pyStartsWith file_line "From File" = false)
    (h4 : ¬ (py_digit_leading file_line = true ∧ header_linenum = 1))
    (hstep : data_header_step data_file_path subpath_replace_dict
      import_scan scan_is_flying raise_warning header_linenum file_line st =
      Except.ok out) :
    out.state.info.scan_type = st.info.scan_type := by
  unfold data_header_step at hstep
  by_cases c1 : st.get_motor_name = true
  · rw [if_pos c1] at hstep; cases hstep; rfl
  rw [if_neg c1] at hstep
  by_cases c2 : st.get_pause_motor_name = true
  · rw [if_pos c2] at hstep; cases hstep; rfl
  rw [if_neg c2] at hstep
  by_cases c3 : st.get_scan_file_path = true
  · rw [if_pos c3] at hstep
    split at hstep
    · cases hstep
    · cases hstep
      exact scan_file_branch_scan_type _ _ _ _ _ _ _ _ (by assumption)
  rw [if_neg c3] at hstep
  by_cases c4 : st.get_memo = true
  · rw [if_pos c4] at hstep; cases hstep; rfl
  rw [if_neg c4] at hstep
  by_cases c5 : pyStartsWith file_line "Date: " = true
  · rw [if_pos c5] at hstep
    repeat' split at hstep
    all_goals first | (cases hstep; rfl) | cases hstep
  rw [if_neg c5] at hstep
  rw [if_neg (by simp [h1] : ¬ pyStartsWith file_line "Flying Scan" = true)]
    at hstep
  rw [if_neg (by simp [h2] :
    ¬ pyStartsWith file_line "Start, Stop, Increment" = true)] at hstep
  rw [if_neg (by simp [h3] : ¬ pyStartsWith file_line "From File" = true)]
    at hstep
  by_cases c9 : pyStartsWith file_line "Start" = true
  · rw [if_pos c9] at hstep
    repeat' split at hstep
    all_goals first | (cases hstep; rfl) | cases hstep
  rw [if_neg c9] at hstep
  by_cases c10 : pyStartsWith file_line "Stop" = true
  · rw [if_pos c10] at hstep
    repeat' split at hstep
    all_goals first | (cases hstep; rfl) | cases hstep
  rw [if_neg c10] at hstep
  by_cases c11 : pyStartsWith file_line "Increment" = true
  · rw [if_pos c11] at hstep
    repeat' split at hstep
    all_goals first | (cases hstep; rfl) | cases hstep
  rw [if_neg c11] at hstep
  by_cases c12 : pyStartsWith file_line "X Center" = true
  · rw [if_pos c12] at hstep
    repeat' split at hstep
    all_goals first | (cases hstep; rfl) | cases hstep
  rw [if_neg c12] at hstep
  by_cases c13 : pyStartsWith file_line "Delay " = true
  · rw [if_pos c13] at hstep
    repeat' split at hstep
    all_goals first | (cases hstep; rfl) | cases hstep
  rw [if_neg c13] at hstep
  by_cases c14 : pyStartsWith file_line "Count " = true
  · rw [if_pos c14] at hstep
    repeat' split at hstep
    all_goals first | (cases hstep; rfl) | cases hstep
  rw [if_neg c14] at hstep
  by_cases c15 : pyStartsWith file_line "Scan Number" = true
  · rw [if_pos c15] at hstep
    repeat' split at hstep
    all_goals first | (cases hstep; rfl) | cases hstep
  rw [if_neg c15] at hstep
  by_cases c16 : pyStartsWith file_line "Bi-directional" = true
  · rw [if_pos c16] at hstep
    repeat' split at hstep
    all_goals first | (cases hstep; rfl) | cases hstep
  rw [if_neg c16] at hstep
  by_cases c17 : pyStartsWith file_line "Stay " = true
  · rw [if_pos c17] at hstep
    repeat' split at hstep
    all_goals first | (cases hstep; rfl) | cases hstep
  rw [if_neg c17] at hstep
  by_cases c18 : pyStartsWith file_line "Decription " = true
  · rw [if_pos c18] at hstep
    repeat' split at hstep
    all_goals first | (cases hstep; rfl) | cases hstep
  rw [if_neg c18] at hstep
  by_cases c19 : py_digit_leading file_line = true
  · rw [if_pos c19] at hstep
    have hne1 : ¬ header_linenum = 1 := fun hh => h4 ⟨c19, hh⟩
    by_cases c20 : st.is_time_scan = true
    · rw [if_pos c20] at hstep
      split at hstep
      · cases hstep
      · rename_i r heq
        repeat' split at hstep
        all_goals first
          | exact absurd (by assumption : header_linenum = 1) hne1
          | (cases hstep;
             exact handle_time_scan_numbers_scan_type _ _ _ _ _ heq)
          | cases hstep
    · rw [if_neg c20] at hstep
      rw [if_neg hne1] at hstep
      cases hstep; rfl
  · rw [if_neg c19] at hstep
    cases hstep; rfl

/-- Witness for the amended C6: a Stop line is not a scan-type trigger and
leaves the already-set scan_type Single Motor unchanged. -/
theorem scan_type_overwrite_only_triggers_witness :
    (pyStartsWith "Stop: 5\n" "Flying Scan" = false ∧
      pyStartsWith "Stop: 5\n" "Start, Stop, Increment" = false ∧
      pyStartsWith "Stop: 5\n" "From File" = false ∧
      ¬ (py_digit_leading "Stop: 5\n" = true ∧ (7 : Nat) = 1)) ∧
    (data_header_step "TrajScan0001.txt" [] no_import no_flying false 7
        "Stop: 5\n" demo_parser_state = Except.ok demo_step_out) ∧
    demo_step_out.state.info.scan_type =
      demo_parser_state.info.scan_type := by
  refine ⟨⟨by decide, by decide, by decide, by decide⟩, rfl, ?_⟩
  exact scan_type_overwrite_only_triggers "TrajScan0001.txt" [] no_import
    no_flying false 7 "Stop: 5\n" demo_parser_state demo_step_out
    (by decide) (by decide) (by decide) (by decide) rfl

end AlsBcs